import Mathlib

/-!
Verification of the blogicum query/visibility and access-control layer.

The development shallowly embeds the two source files
`blogicum/core/utils.py` and `blogicum/blog/views.py`:

* rows of the ORM tables become Lean structures (`User`, `Category`,
  `Post`, `Comment`); `select_related` joins are embedded by storing the
  joined `author` and `category` rows inside each `Post`;
* querysets become Lean lists; `order_by("-pub_date")` becomes a
  structural insertion sort on the publication timestamp (the source's
  tie-break order is unspecified, only the ordering key matters here);
* `timezone.now()` becomes an explicit `now : Int` parameter;
* view classes become functions from a database value, the current
  viewer and the route arguments to a `Response` together with the
  resulting database (and, for comment creation, the list of mails the
  request sent);
* `get_object_or_404` becomes `List.find?`, with `none` standing for
  the 404 outcome.
-/

namespace Blogicum

/-- A row of the user table; `email` is what `send_author_email` reads,
`username` is the profile route key. -/
structure User where
  id : Nat
  username : String
  email : String
deriving DecidableEq

/-- A row of the category table; `is_published` is the flag
`post_published_query` and the category view filter on. -/
structure Category where
  id : Nat
  slug : String
  is_published : Bool
deriving DecidableEq

/-- A row of the post table. The `author` and `category` rows are stored
inline, embedding the `select_related("category", "location", "author")`
join of `post_all_query` (the `location` join is display-only and carries
no logic, so it is omitted). -/
structure Post where
  id : Nat
  author : User
  category : Category
  title : String
  text : String
  pub_date : Int
  is_published : Bool
deriving DecidableEq

/-- A row of the comment table; `post` is the id of the parent post. -/
structure Comment where
  id : Nat
  author : User
  post : Nat
  text : String
deriving DecidableEq

/-- The stored state the views read and write. -/
structure DB where
  users : List User
  posts : List Post
  comments : List Comment
deriving DecidableEq

/-- The identity making the request: `request.user` is either an
authenticated user or Django's anonymous user, which compares unequal to
every `User` row. -/
inductive Viewer where
  | anonymous : Viewer
  | user (u : User) : Viewer
deriving DecidableEq

/-- Redirect targets used by the embedded views (`reverse` calls and the
login entry point of `LoginRequiredMixin`). -/
inductive Url where
  | login : Url
  | postDetail (post_id : Nat) : Url
  | profile (username : String) : Url
deriving DecidableEq

/-- The outcome of a request: a rendered page carrying a post, a
redirect, or the 404 outcome of `get_object_or_404` / an empty queryset. -/
inductive Response where
  | notFound : Response
  | redirect (u : Url) : Response
  | page (p : Post) : Response
deriving DecidableEq

/-- Insert a post into a list sorted by `pub_date` descending (one step
of the embedding of `order_by("-pub_date")`). -/
def insert_desc (p : Post) : List Post → List Post
  | [] => [p]
  | q :: qs => if p.pub_date ≤ q.pub_date then q :: insert_desc p qs else p :: q :: qs

/-- Sort posts by `pub_date` descending: the `order_by("-pub_date")` of
`post_all_query`. -/
def order_by_pub_date_desc : List Post → List Post
  | [] => []
  | p :: ps => insert_desc p (order_by_pub_date_desc ps)

/-- The `comment_count` annotation of `post_all_query`: the number of
stored comments attached to the post, recomputed from the current
database. -/
def comment_count (db : DB) (p : Post) : Nat :=
  (db.comments.filter (fun c => c.post == p.id)).length

/-- Embedding of `core.utils.post_all_query`: every post, ordered by
publication date descending (joins are already inline in `Post`, and the
`comment_count` annotation is the separate function `comment_count`). -/
def post_all_query (db : DB) : List Post :=
  order_by_pub_date_desc db.posts

/-- The filter of `post_published_query` (and of `get_post_data`):
`pub_date__lte=timezone.now(), is_published=True,
category__is_published=True`. -/
def published_criteria (now : Int) (p : Post) : Bool :=
  decide (p.pub_date ≤ now) && p.is_published && p.category.is_published

/-- Embedding of `core.utils.post_published_query`:
`post_all_query().filter(pub_date__lte=now, is_published=True,
category__is_published=True)`. -/
def post_published_query (db : DB) (now : Int) : List Post :=
  (post_all_query db).filter (published_criteria now)

/-- Embedding of `core.utils.get_post_data`:
`get_object_or_404(Post, pk=post_id, pub_date__lte=timezone.now(),
is_published=True, category__is_published=True)` — the three filter
keyword arguments are exactly the `published_criteria` conjuncts. -/
def get_post_data (db : DB) (now : Int) (post_id : Nat) : Option Post :=
  db.posts.find? (fun p => p.id == post_id && published_criteria now p)

/-- Embedding of `blog.views.PostDetailView` (its `get_queryset` together
with `DetailView`'s object lookup): resolve the post by primary key with
`get_object_or_404` (404 when absent); if the viewer is the post's author
the page is served from `post_all_query` restricted to that key, otherwise
from `post_published_query` restricted to that key, and an empty queryset
is the 404 outcome. -/
def post_detail_view (db : DB) (now : Int) (viewer : Viewer) (post_id : Nat) : Response :=
  match db.posts.find? (fun p => p.id == post_id) with
  | none => Response.notFound
  | some post_data =>
    let qs :=
      if viewer = Viewer.user post_data.author then
        (post_all_query db).filter (fun p => p.id == post_id)
      else
        (post_published_query db now).filter (fun p => p.id == post_id)
    match qs.find? (fun p => p.id == post_id) with
    | none => Response.notFound
    | some p => Response.page p

/-- A mail message as handed to `django.core.mail.send_mail`. -/
structure MailMsg where
  subject : String
  message : String
  from_email : String
  recipient_list : List String
deriving DecidableEq

/-- The absolute URL of a post's detail page, the embedding of
`request.build_absolute_uri(self.get_success_url())`. -/
def post_detail_url (post_id : Nat) : String :=
  "/posts/" ++ toString post_id ++ "/"

/-- Embedding of `CommentCreateView.send_author_email`: subject, message
text, sender and the single-recipient list are taken verbatim from the
source. -/
def send_author_email_msg (viewer_username : String) (post_data : Post) : MailMsg :=
  { subject := "New comment",
    message :=
      "Пользователь " ++ viewer_username ++ " добавил " ++
      "комментарий к посту " ++ post_data.title ++ ".\n" ++
      "Читать комментарий " ++ post_detail_url post_data.id,
    from_email := "from@example.com",
    recipient_list := [post_data.author.email] }

/-- An observable step of `CommentCreateView.form_valid`: sending a mail
or persisting the new comment. -/
inductive Event where
  | sendMail (m : MailMsg) : Event
  | saveComment (c : Comment) : Event
deriving DecidableEq

/-- Embedding of the body of `CommentCreateView.form_valid`, as the
ordered list of its observable steps: the author and parent post are set
on the comment, the notification is sent when the commenter is not the
post's author, and `super().form_valid(form)` persists the comment
last. -/
def form_valid_events (u : User) (post_data : Post) (text : String) (new_id : Nat) :
    List Event :=
  (if post_data.author ≠ u
    then [Event.sendMail (send_author_email_msg u.username post_data)]
    else [])
  ++ [Event.saveComment { id := new_id, author := u, post := post_data.id, text := text }]

/-- Interpret a list of events over the database, collecting the mails
sent in order and threading the stored state. -/
def run_events (db : DB) : List Event → List MailMsg × DB
  | [] => ([], db)
  | Event.sendMail m :: es =>
    let r := run_events db es
    (m :: r.1, r.2)
  | Event.saveComment c :: es =>
    run_events { db with comments := db.comments ++ [c] } es

/-- Embedding of `blog.views.CommentCreateView`: `dispatch` first runs
`get_post_data` (404 when the post fails the published criteria), then
`super().dispatch` runs `LoginRequiredMixin` (login redirect for an
anonymous viewer), then `form_valid` runs its event list and the view
redirects to the post's detail page. Returns the response, the mails
sent, and the resulting database. -/
def comment_create_view (db : DB) (now : Int) (viewer : Viewer) (post_id : Nat)
    (text : String) (new_id : Nat) : Response × List MailMsg × DB :=
  match get_post_data db now post_id with
  | none => (Response.notFound, [], db)
  | some post_data =>
    match viewer with
    | Viewer.anonymous => (Response.redirect Url.login, [], db)
    | Viewer.user u =>
      let r := run_events db (form_valid_events u post_data text new_id)
      (Response.redirect (Url.postDetail post_id), r.1, r.2)

/-- The validated fields of `PostEditForm`. -/
structure PostForm where
  title : String
  text : String
  pub_date : Int
  category : Category
deriving DecidableEq

/-- Apply a validated post form to a stored post (the save step of
`UpdateView.form_valid`). -/
def apply_post_form (f : PostForm) (p : Post) : Post :=
  { p with
    title := f.title
    text := f.text
    pub_date := f.pub_date
    category := f.category }

/-- Embedding of `blog.views.PostUpdateView`: `dispatch` resolves the
post by primary key (404 when absent) and redirects any viewer who is not
the author — the anonymous viewer included — to the post's detail page;
only then does `super().dispatch` run `LoginRequiredMixin` and the form
machinery, which saves the form and redirects to the detail page. -/
def post_update_view (db : DB) (viewer : Viewer) (post_id : Nat) (form : PostForm) :
    Response × DB :=
  match db.posts.find? (fun p => p.id == post_id) with
  | none => (Response.notFound, db)
  | some post =>
    if Viewer.user post.author ≠ viewer then
      (Response.redirect (Url.postDetail post_id), db)
    else
      match viewer with
      | Viewer.anonymous => (Response.redirect Url.login, db)
      | Viewer.user _ =>
        (Response.redirect (Url.postDetail post_id),
          { db with posts :=
              db.posts.map (fun p => if p.id == post_id then apply_post_form form p else p) })

/-- Embedding of `blog.views.PostDeleteView`: the same `dispatch` guard
as `PostUpdateView`; on success the post row is deleted (the storage
layer cascades to its comments) and the view redirects to the viewer's
profile. -/
def post_delete_view (db : DB) (viewer : Viewer) (post_id : Nat) : Response × DB :=
  match db.posts.find? (fun p => p.id == post_id) with
  | none => (Response.notFound, db)
  | some post =>
    if Viewer.user post.author ≠ viewer then
      (Response.redirect (Url.postDetail post_id), db)
    else
      match viewer with
      | Viewer.anonymous => (Response.redirect Url.login, db)
      | Viewer.user u =>
        (Response.redirect (Url.profile u.username),
          { db with
            posts := db.posts.filter (fun p => !(p.id == post_id))
            comments := db.comments.filter (fun c => !(c.post == post_id)) })

/-- Modelled from the spec: `core.mixins.CommentMixinView` is imported by
`blog/views.py` but its source file is not under `src/`. Per spec §4.2 and
§4.5, comment update and delete resolve the comment (404 when absent),
require authentication (an anonymous viewer is redirected to the login
entry point) and ownership: an authenticated viewer who is not the
comment's author is redirected to the parent post's detail page — the
route's `post_id` — and no mutation occurs; the owner's mutation runs and
also redirects to the post's detail page. -/
def comment_guard (db : DB) (viewer : Viewer) (post_id comment_id : Nat)
    (action : DB → DB) : Response × DB :=
  match db.comments.find? (fun c => c.id == comment_id) with
  | none => (Response.notFound, db)
  | some c =>
    match viewer with
    | Viewer.anonymous => (Response.redirect Url.login, db)
    | Viewer.user u =>
      if u ≠ c.author then
        (Response.redirect (Url.postDetail post_id), db)
      else
        (Response.redirect (Url.postDetail post_id), action db)

/-- Embedding of `blog.views.CommentUpdateView` over the spec-modelled
`comment_guard`: the owner's update replaces the comment's text. -/
def comment_update_view (db : DB) (viewer : Viewer) (post_id comment_id : Nat)
    (new_text : String) : Response × DB :=
  comment_guard db viewer post_id comment_id (fun db =>
    { db with comments :=
        db.comments.map (fun c => if c.id == comment_id then { c with text := new_text } else c) })

/-- Embedding of `blog.views.CommentDeleteView` over the spec-modelled
`comment_guard`: the owner's delete removes the comment row. -/
def comment_delete_view (db : DB) (viewer : Viewer) (post_id comment_id : Nat) :
    Response × DB :=
  comment_guard db viewer post_id comment_id (fun db =>
    { db with comments := db.comments.filter (fun c => !(c.id == comment_id)) })

/-- Embedding of `django.core.paginator.Paginator.num_pages` with the
default `orphans=0, allow_empty_first_page=True`: the ceiling of
`max 1 count / per_page`. -/
def num_pages (count per_page : Nat) : Nat :=
  (max 1 count + per_page - 1) / per_page

/-- One page of the object list:
`object_list[(number-1)*per_page : (number-1)*per_page + per_page]`. -/
def page_items {α : Type} (xs : List α) (per_page number : Nat) : List α :=
  (xs.drop ((number - 1) * per_page)).take per_page

/-- Embedding of `Paginator.get_page` composed with
`request.GET.get("page")`: the argument is `none` when the `page` query
parameter is absent or not an integer (the `PageNotAnInteger` branch of
`validate_number`, which `get_page` turns into page 1); an integer below
1 or above `num_pages` raises `EmptyPage`, which `get_page` turns into
the last page. Returns the validated page number with that page's
items. -/
def get_page {α : Type} (xs : List α) (per_page : Nat) (arg : Option Int) :
    Nat × List α :=
  let np := num_pages xs.length per_page
  let number : Nat :=
    match arg with
    | none => 1
    | some n => if n < 1 then np else if (np : Int) < n then np else n.toNat
  (number, page_items xs per_page number)

/-- Embedding of `core.utils.get_paginated_page` as used at its call
sites, which all pass `per_page=10`. -/
def get_paginated_page {α : Type} (queryset : List α) (page_arg : Option Int) :
    Nat × List α :=
  get_page queryset 10 page_arg

/-- Embedding of the username lookup
`get_object_or_404(User, username=username)` of `UserPostsListView`. -/
def find_user (db : DB) (username : String) : Option User :=
  db.users.find? (fun u => u.username == username)

/-- Embedding of the `total_posts` context value of
`UserPostsListView.get_context_data`: resolve the profile user by
username (404 when absent); the count is over `post_all_query` filtered
to the author when the viewer is the profile owner, and over
`post_published_query` filtered to the author otherwise. -/
def profile_total_posts (db : DB) (now : Int) (viewer : Viewer) (username : String) :
    Option Nat :=
  match find_user db username with
  | none => none
  | some author =>
    if viewer = Viewer.user author then
      some ((post_all_query db).filter (fun p => decide (p.author = author))).length
    else
      some ((post_published_query db now).filter (fun p => decide (p.author = author))).length

/-- A concrete author for the worked examples. -/
def alice : User := { id := 1, username := "alice", email := "alice@example.com" }

/-- A concrete second user for the worked examples. -/
def bob : User := { id := 2, username := "bob", email := "bob@example.com" }

/-- A published category. -/
def openCat : Category := { id := 1, slug := "open", is_published := true }

/-- An unpublished category. -/
def hiddenCat : Category := { id := 2, slug := "hidden", is_published := false }

/-- A post meeting every published criterion at time 100. -/
def goodPost : Post :=
  { id := 1, author := alice, category := openCat, title := "Hello",
    text := "body", pub_date := 50, is_published := true }

/-- A post failing the published flag. -/
def draftPost : Post :=
  { id := 2, author := alice, category := openCat, title := "Draft",
    text := "body", pub_date := 50, is_published := false }

/-- A small database exercising the visibility predicates. -/
def exDB : DB :=
  { users := [alice, bob], posts := [goodPost, draftPost], comments := [] }

/-- A stored comment by alice on `goodPost`. -/
def aliceComment : Comment := { id := 1, author := alice, post := 1, text := "first" }

/-- The database `exDB` with one stored comment. -/
def exDB2 : DB :=
  { users := [alice, bob], posts := [goodPost, draftPost], comments := [aliceComment] }

/-- A validated post form for the mutation examples. -/
def exForm : PostForm :=
  { title := "T", text := "B", pub_date := 60, category := openCat }

/-- The 25-item list of the pagination example. -/
def items25 : List Nat := (List.range 25).map (fun n => n + 1)

theorem mem_insert_desc {p a : Post} {l : List Post} :
    a ∈ insert_desc p l ↔ a = p ∨ a ∈ l := by
  induction l with
  | nil => simp [insert_desc]
  | cons q qs ih =>
    by_cases h : p.pub_date ≤ q.pub_date
    · simp [insert_desc, h, ih]
      try tauto
    · simp [insert_desc, h]
      try tauto

theorem insert_desc_perm (p : Post) (l : List Post) :
    (insert_desc p l).Perm (p :: l) := by
  induction l with
  | nil => simp [insert_desc]
  | cons q qs ih =>
    by_cases h : p.pub_date ≤ q.pub_date
    · simp only [insert_desc, h, if_pos]
      exact ((ih.cons q).trans (List.Perm.swap p q qs))
    · simp [insert_desc, h]

theorem order_by_pub_date_desc_perm (l : List Post) :
    (order_by_pub_date_desc l).Perm l := by
  induction l with
  | nil => simp [order_by_pub_date_desc]
  | cons p ps ih =>
    exact (insert_desc_perm p (order_by_pub_date_desc ps)).trans (ih.cons p)

theorem mem_post_all_query {db : DB} {p : Post} :
    p ∈ post_all_query db ↔ p ∈ db.posts :=
  (order_by_pub_date_desc_perm db.posts).mem_iff

theorem mem_post_published_query {db : DB} {now : Int} {p : Post} :
    p ∈ post_published_query db now ↔
      p ∈ db.posts ∧ published_criteria now p = true := by
  rw [post_published_query, List.mem_filter, mem_post_all_query]

theorem find_by_key {α κ : Type} [BEq κ] [LawfulBEq κ] (key : α → κ) {l : List α} {x : α} {k : κ}
    (hmem : x ∈ l) (hkey : key x = k) (huniq : ∀ y ∈ l, key y = key x → y = x) :
    l.find? (fun y => key y == k) = some x := by
  subst hkey
  cases hfind : l.find? (fun y => key y == key x) with
  | none =>
    rw [List.find?_eq_none] at hfind
    exact absurd (beq_self_eq_true (key x)) (hfind x hmem)
  | some y =>
    have h1 : key y = key x := by simpa using List.find?_some hfind
    have h2 : y ∈ l := List.mem_of_find?_eq_some hfind
    rw [huniq y h2 h1]

theorem get_post_data_eq_none {db : DB} {now : Int} {p : Post}
    (hp : p ∈ db.posts) (hnd : (db.posts.map Post.id).Nodup)
    (hcrit : published_criteria now p = false) :
    get_post_data db now p.id = none := by
  rw [get_post_data, List.find?_eq_none]
  intro q hq hbeq
  have hid : q.id = p.id := by
    have := (Bool.and_eq_true _ _).mp hbeq
    simpa using this.1
  have hqp : q = p := List.inj_on_of_nodup_map hnd hq hp hid
  subst hqp
  rw [hcrit] at hbeq
  simp at hbeq

theorem get_post_data_eq_some {db : DB} {now : Int} {p : Post}
    (hp : p ∈ db.posts) (hnd : (db.posts.map Post.id).Nodup)
    (hcrit : published_criteria now p = true) :
    get_post_data db now p.id = some p := by
  rw [get_post_data]
  cases hfind : db.posts.find? (fun q => q.id == p.id && published_criteria now q) with
  | none =>
    rw [List.find?_eq_none] at hfind
    exact absurd (by simp [hcrit]) (hfind p hp)
  | some q =>
    have h1 := List.find?_some hfind
    have hid : q.id = p.id := by
      have := (Bool.and_eq_true _ _).mp h1
      simpa using this.1
    rw [List.inj_on_of_nodup_map hnd (List.mem_of_find?_eq_some hfind) hp hid]

/-- C1: a post of the store is in `post_published_query` exactly when its
own published flag is set, its publication timestamp is at or before the
current time, and its category's published flag is set. -/
theorem published_posts_iff (db : DB) (now : Int) (p : Post) (hp : p ∈ db.posts) :
    p ∈ post_published_query db now ↔
      (p.is_published = true ∧ p.pub_date ≤ now ∧ p.category.is_published = true) := by
  rw [mem_post_published_query, published_criteria]
  simp [hp, and_comm, and_assoc]
  tauto

theorem published_posts_iff_witness :
    goodPost ∈ post_published_query exDB 100 :=
  (published_posts_iff exDB 100 goodPost (by decide)).mpr (by decide)

/-- C2: for an existing post, the detail route serves the post's page
exactly when the viewer is the post's author or the post meets the
published criteria, and reports not-found otherwise. -/
theorem post_detail_access (db : DB) (now : Int) (v : Viewer) (p : Post)
    (hp : p ∈ db.posts) (hnd : (db.posts.map Post.id).Nodup) :
    post_detail_view db now v p.id =
      (if v = Viewer.user p.author ∨ published_criteria now p = true
        then Response.page p else Response.notFound) := by
  have huniq : ∀ q ∈ db.posts, q.id = p.id → q = p :=
    fun q hq h => List.inj_on_of_nodup_map hnd hq hp h
  have hfind : db.posts.find? (fun q => q.id == p.id) = some p :=
    find_by_key Post.id hp rfl huniq
  rw [post_detail_view, hfind]
  by_cases hv : v = Viewer.user p.author
  · have hfind2 :
        ((post_all_query db).filter (fun q => q.id == p.id)).find?
            (fun q => q.id == p.id) = some p := by
      refine find_by_key Post.id ?_ rfl ?_
      · exact List.mem_filter.mpr ⟨mem_post_all_query.mpr hp, by simp⟩
      · intro q hq h
        exact huniq q (mem_post_all_query.mp (List.mem_filter.mp hq).1) h
    simp [hv, hfind2]
  · by_cases hcrit : published_criteria now p = true
    · have hfind2 :
          ((post_published_query db now).filter (fun q => q.id == p.id)).find?
              (fun q => q.id == p.id) = some p := by
        refine find_by_key Post.id ?_ rfl ?_
        · exact List.mem_filter.mpr ⟨mem_post_published_query.mpr ⟨hp, hcrit⟩, by simp⟩
        · intro q hq h
          exact huniq q (mem_post_published_query.mp (List.mem_filter.mp hq).1).1 h
      simp [hv, hcrit, hfind2]
    · have hfind2 :
          ((post_published_query db now).filter (fun q => q.id == p.id)).find?
              (fun q => q.id == p.id) = none := by
        rw [List.find?_eq_none]
        intro q hq hbeq
        have hid : q.id = p.id := by simpa using hbeq
        have hq1 := List.mem_filter.mp hq
        have hqp : q = p := huniq q (mem_post_published_query.mp hq1.1).1 hid
        subst hqp
        exact hcrit (mem_post_published_query.mp hq1.1).2
      simp [hv, hcrit, hfind2]

theorem post_detail_access_witness :
    post_detail_view exDB 100 (Viewer.user bob) draftPost.id =
      (if Viewer.user bob = Viewer.user draftPost.author ∨
            published_criteria 100 draftPost = true
        then Response.page draftPost else Response.notFound) :=
  post_detail_access exDB 100 (Viewer.user bob) draftPost (by decide) (by decide)

/-- C3: on a post that fails the published criteria, comment creation
reports not-found for every viewer — the post's own author included —
no mail is sent and the stored state is unchanged. -/
theorem unpublished_comment_create_not_found (db : DB) (now : Int) (v : Viewer)
    (p : Post) (text : String) (new_id : Nat)
    (hp : p ∈ db.posts) (hnd : (db.posts.map Post.id).Nodup)
    (hcrit : published_criteria now p = false) :
    comment_create_view db now v p.id text new_id = (Response.notFound, [], db) := by
  rw [comment_create_view, get_post_data_eq_none hp hnd hcrit]

theorem unpublished_comment_create_not_found_witness :
    comment_create_view exDB 100 (Viewer.user alice) draftPost.id "hi" 7 =
      (Response.notFound, [], exDB) :=
  unpublished_comment_create_not_found exDB 100 (Viewer.user alice) draftPost "hi" 7
    (by decide) (by decide) (by decide)

/-- C4: an authenticated viewer who is not the resource's author gets a
redirect to the resource's detail page — the parent post's page for a
comment — and the stored state is unchanged, for post update, post
delete, comment update and comment delete. -/
theorem non_owner_mutation_redirects (db : DB) (u : User) (p : Post) (c : Comment)
    (form : PostForm) (new_text : String)
    (hp : p ∈ db.posts) (hndp : (db.posts.map Post.id).Nodup)
    (hc : c ∈ db.comments) (hndc : (db.comments.map Comment.id).Nodup)
    (hup : u ≠ p.author) (huc : u ≠ c.author) :
    post_update_view db (Viewer.user u) p.id form =
      (Response.redirect (Url.postDetail p.id), db) ∧
    post_delete_view db (Viewer.user u) p.id =
      (Response.redirect (Url.postDetail p.id), db) ∧
    comment_update_view db (Viewer.user u) c.post c.id new_text =
      (Response.redirect (Url.postDetail c.post), db) ∧
    comment_delete_view db (Viewer.user u) c.post c.id =
      (Response.redirect (Url.postDetail c.post), db) := by
  have hpfind : db.posts.find? (fun q => q.id == p.id) = some p :=
    find_by_key Post.id hp rfl (fun q hq h => List.inj_on_of_nodup_map hndp hq hp h)
  have hcfind : db.comments.find? (fun q => q.id == c.id) = some c :=
    find_by_key Comment.id hc rfl (fun q hq h => List.inj_on_of_nodup_map hndc hq hc h)
  have hpa : p.author ≠ u := fun e => hup e.symm
  refine ⟨?_, ?_, ?_, ?_⟩
  · rw [post_update_view, hpfind]
    simp [hpa]
  · rw [post_delete_view, hpfind]
    simp [hpa]
  · rw [comment_update_view, comment_guard, hcfind]
    simp [huc]
  · rw [comment_delete_view, comment_guard, hcfind]
    simp [huc]

theorem non_owner_mutation_redirects_witness :
    post_update_view exDB2 (Viewer.user bob) goodPost.id exForm =
      (Response.redirect (Url.postDetail goodPost.id), exDB2) ∧
    comment_delete_view exDB2 (Viewer.user bob) aliceComment.post aliceComment.id =
      (Response.redirect (Url.postDetail aliceComment.post), exDB2) :=
  ⟨(non_owner_mutation_redirects exDB2 bob goodPost aliceComment exForm "x"
      (by decide) (by decide) (by decide) (by decide) (by decide) (by decide)).1,
    (non_owner_mutation_redirects exDB2 bob goodPost aliceComment exForm "x"
      (by decide) (by decide) (by decide) (by decide) (by decide) (by decide)).2.2.2⟩

/-- C5 counterexample: the anonymous viewer requesting the update or
delete route of the existing post 1 is redirected to the post's detail
page, not to the login entry point, refuting the claimed login
redirect. -/
theorem anonymous_post_update_counterexample :
    (post_update_view exDB Viewer.anonymous 1 exForm).1 =
        Response.redirect (Url.postDetail 1) ∧
    (post_update_view exDB Viewer.anonymous 1 exForm).1 ≠ Response.redirect Url.login ∧
    (post_delete_view exDB Viewer.anonymous 1).1 ≠ Response.redirect Url.login := by
  decide

/-- C5 (amended): for an existing post, an anonymous viewer requesting
the update or delete route is redirected to the post's own detail page —
the ownership check in `dispatch` runs before `LoginRequiredMixin`, and
the anonymous viewer never equals the author — before any form
processing, leaving the stored state unchanged. -/
theorem anonymous_post_mutation_redirects_detail (db : DB) (p : Post) (form : PostForm)
    (hp : p ∈ db.posts) (hnd : (db.posts.map Post.id).Nodup) :
    post_update_view db Viewer.anonymous p.id form =
      (Response.redirect (Url.postDetail p.id), db) ∧
    post_delete_view db Viewer.anonymous p.id =
      (Response.redirect (Url.postDetail p.id), db) := by
  have hpfind : db.posts.find? (fun q => q.id == p.id) = some p :=
    find_by_key Post.id hp rfl (fun q hq h => List.inj_on_of_nodup_map hnd hq hp h)
  constructor
  · rw [post_update_view, hpfind]
    simp
  · rw [post_delete_view, hpfind]
    simp

theorem anonymous_post_mutation_redirects_detail_witness :
    post_update_view exDB Viewer.anonymous goodPost.id exForm =
      (Response.redirect (Url.postDetail goodPost.id), exDB) :=
  (anonymous_post_mutation_redirects_detail exDB goodPost exForm
    (by decide) (by decide)).1

/-- C6 counterexample: with 25 items, requesting page 0 — a page number
below the first page — yields page 3, the last page, not the first
page. -/
theorem pagination_below_first_counterexample :
    (get_paginated_page items25 (some 0)).1 = 3 ∧ (3 : Nat) ≠ 1 := by
  decide

/-- C6 (amended): the pagination helper with `per_page=10` never fails: a
missing or non-integer page yields page 1; an integer page number below 1
or past the last page yields the last page; the returned page number is
always between 1 and the page count; with 25 items page 1 holds items
1–10, page 3 holds items 21–25, and page 99 yields page 3. -/
theorem pagination_clamps {α : Type} (xs : List α) (n : Int) :
    (get_paginated_page xs none).1 = 1 ∧
    (n < 1 → (get_paginated_page xs (some n)).1 = num_pages xs.length 10) ∧
    ((num_pages xs.length 10 : Int) < n →
      (get_paginated_page xs (some n)).1 = num_pages xs.length 10) ∧
    (1 ≤ (get_paginated_page xs (some n)).1 ∧
      (get_paginated_page xs (some n)).1 ≤ num_pages xs.length 10) ∧
    get_paginated_page items25 (some 1) = (1, [1, 2, 3, 4, 5, 6, 7, 8, 9, 10]) ∧
    get_paginated_page items25 (some 3) = (3, [21, 22, 23, 24, 25]) ∧
    get_paginated_page items25 (some 99) = (3, [21, 22, 23, 24, 25]) := by
  have hone : 1 ≤ num_pages xs.length 10 := by
    rw [num_pages]
    have h := Nat.le_max_left 1 xs.length
    omega
  refine ⟨rfl, ?_, ?_, ?_, by decide, by decide, by decide⟩
  · intro h
    simp [get_paginated_page, get_page, h]
  · intro h
    have h1 : ¬ n < 1 := by omega
    simp [get_paginated_page, get_page, h1, h]
  · rw [get_paginated_page, get_page]
    by_cases h1 : n < 1
    · simp [h1, hone]
    · by_cases h2 : ((num_pages xs.length 10 : Int) < n)
      · simp [h1, h2, hone]
      · simp [h1, h2]
        omega

theorem pagination_clamps_witness :
    (get_paginated_page items25 (some 0)).1 = num_pages items25.length 10 :=
  (pagination_clamps items25 0).2.1 (by decide)

/-- C7: a successful comment creation on a qualifying post redirects to
the post's detail page; a commenter other than the post's author causes
exactly one mail, addressed to the post author's email and containing the
post's title, while the author commenting on their own post causes no
mail. -/
theorem comment_create_notification (db : DB) (now : Int) (u : User) (p : Post)
    (text : String) (new_id : Nat)
    (hp : p ∈ db.posts) (hnd : (db.posts.map Post.id).Nodup)
    (hcrit : published_criteria now p = true) :
    (comment_create_view db now (Viewer.user u) p.id text new_id).1 =
        Response.redirect (Url.postDetail p.id) ∧
    (u ≠ p.author →
      (comment_create_view db now (Viewer.user u) p.id text new_id).2.1 =
          [send_author_email_msg u.username p] ∧
      (send_author_email_msg u.username p).recipient_list = [p.author.email] ∧
      ∃ a b, (send_author_email_msg u.username p).message = a ++ (p.title ++ b)) ∧
    (u = p.author →
      (comment_create_view db now (Viewer.user u) p.id text new_id).2.1 = []) := by
  have hsome := get_post_data_eq_some hp hnd hcrit
  refine ⟨?_, ?_, ?_⟩
  · simp [comment_create_view, hsome]
  · intro hne
    have hpa : p.author ≠ u := fun e => hne e.symm
    refine ⟨?_, rfl, ?_⟩
    · simp [comment_create_view, hsome, form_valid_events, run_events, hpa]
    · refine ⟨"Пользователь " ++ u.username ++ " добавил " ++ "комментарий к посту ",
        ".\nЧитать комментарий " ++ post_detail_url p.id, ?_⟩
      simp [send_author_email_msg, String.append_assoc]
  · intro he
    subst he
    simp [comment_create_view, hsome, form_valid_events, run_events]

theorem comment_create_notification_witness :
    (comment_create_view exDB 100 (Viewer.user bob) goodPost.id "hi" 7).2.1 =
        [send_author_email_msg bob.username goodPost] ∧
    (send_author_email_msg bob.username goodPost).recipient_list =
        [goodPost.author.email] :=
  ⟨(comment_create_notification exDB 100 bob goodPost "hi" 7
      (by decide) (by decide) (by decide)).2.1 (by decide) |>.1,
    (comment_create_notification exDB 100 bob goodPost "hi" 7
      (by decide) (by decide) (by decide)).2.1 (by decide) |>.2.1⟩

/-- C8: for an existing profile user, the exposed total-post count equals
the number of stored posts by that author when the viewer is the profile
owner, and the number of stored posts by that author meeting the
published criteria otherwise. -/
theorem profile_total_posts_count (db : DB) (now : Int) (v : Viewer) (a : User)
    (ha : a ∈ db.users) (hnd : (db.users.map User.username).Nodup) :
    profile_total_posts db now v a.username =
      some (if v = Viewer.user a
        then (db.posts.filter (fun p => decide (p.author = a))).length
        else (db.posts.filter
          (fun p => decide (p.author = a) && published_criteria now p)).length) := by
  have hfind : find_user db a.username = some a :=
    find_by_key User.username ha rfl (fun y hy h => List.inj_on_of_nodup_map hnd hy ha h)
  simp only [profile_total_posts, hfind]
  by_cases hv : v = Viewer.user a
  · rw [if_pos hv, if_pos hv]
    have hperm := (order_by_pub_date_desc_perm db.posts).filter
      (fun p => decide (p.author = a))
    rw [post_all_query, hperm.length_eq]
  · rw [if_neg hv, if_neg hv]
    rw [post_published_query, post_all_query, List.filter_filter]
    have hperm := (order_by_pub_date_desc_perm db.posts).filter
      (fun p => decide (p.author = a) && published_criteria now p)
    rw [hperm.length_eq]

theorem profile_total_posts_count_witness :
    profile_total_posts exDB 100 (Viewer.user bob) alice.username =
      some (if Viewer.user bob = Viewer.user alice
        then (exDB.posts.filter (fun p => decide (p.author = alice))).length
        else (exDB.posts.filter
          (fun p => decide (p.author = alice) && published_criteria 100 p)).length) :=
  profile_total_posts_count exDB 100 (Viewer.user bob) alice (by decide) (by decide)

/-- C9: the comment-eligibility guard of `CommentCreateView.dispatch`
runs before the login guard: on a post failing the published criteria an
anonymous viewer gets not-found (not a login redirect), while on a
qualifying post the anonymous viewer is redirected to login. -/
theorem comment_create_guard_order (db : DB) (now : Int) (p : Post)
    (text : String) (new_id : Nat)
    (hp : p ∈ db.posts) (hnd : (db.posts.map Post.id).Nodup) :
    (published_criteria now p = false →
      comment_create_view db now Viewer.anonymous p.id text new_id =
        (Response.notFound, [], db)) ∧
    (published_criteria now p = true →
      comment_create_view db now Viewer.anonymous p.id text new_id =
        (Response.redirect Url.login, [], db)) := by
  constructor
  · intro h
    rw [comment_create_view, get_post_data_eq_none hp hnd h]
  · intro h
    rw [comment_create_view, get_post_data_eq_some hp hnd h]

theorem comment_create_guard_order_witness :
    comment_create_view exDB 100 Viewer.anonymous draftPost.id "hi" 8 =
      (Response.notFound, [], exDB) :=
  (comment_create_guard_order exDB 100 draftPost "hi" 8 (by decide) (by decide)).1
    (by decide)

/-- C10: in `form_valid`, when the commenter is not the post's author the
mail-sending event precedes the comment-persisting event, and running the
trace truncated before the persistence step already emits the
notification. -/
theorem notification_before_persist (db : DB) (u : User) (p : Post)
    (text : String) (new_id : Nat) (h : p.author ≠ u) :
    form_valid_events u p text new_id =
      [Event.sendMail (send_author_email_msg u.username p),
        Event.saveComment { id := new_id, author := u, post := p.id, text := text }] ∧
    (run_events db ((form_valid_events u p text new_id).take 1)).1 =
      [send_author_email_msg u.username p] := by
  constructor
  · simp [form_valid_events, h]
  · simp [form_valid_events, h, run_events]

theorem notification_before_persist_witness :
    form_valid_events bob goodPost "hi" 9 =
      [Event.sendMail (send_author_email_msg bob.username goodPost),
        Event.saveComment { id := 9, author := bob, post := goodPost.id, text := "hi" }] :=
  (notification_before_persist exDB bob goodPost "hi" 9 (by decide)).1

end Blogicum
